import Mathlib

/-!
Verification of the embedding ingestion and retrieval service.

This file gives a shallow embedding of the core service code:
* `TextEmbeddingService` — `src/backend/src/services/text_embedding_service.py`
* `QdrantEmbeddingService` — `src/backend/qdrant_integration.py`
* `StrictEmbeddingPipeline` — `src/backend/strict_embedding_pipeline.py`
* `ApiV1` — the `/search` endpoint of `src/backend/src/api/v1/text_embedding.py`

External collaborators (the Cohere embedding provider and the Qdrant vector
store) are modelled explicitly: the provider's response to each `embed` call is
passed in as an `Except` parameter, and the store is a `QdrantState` acted on
by client operations whose failure is injected through a `QdrantClient` record
of per-operation error outcomes.  Vector components are modelled as integers
(the claims under study concern only lengths and error behaviour, never the
numeric values); payload values are modelled as strings.  Python exceptions
become `PyErr` values; a stateful operation returns `QdrantState × Except PyErr α`,
where the returned state is the store state at the moment of the raise.
-/

/-- Payload / metadata dictionaries: association lists from string keys to
string values, first matching key wins on lookup (Python dicts have unique
keys; theorems that need uniqueness carry a `Nodup` hypothesis). -/
abbrev Dict := List (String × String)

/-- Python `d.get(k)` / `d[k]`: the value at the (unique) matching key. -/
def dget : Dict → String → Option String
  | [], _ => none
  | p :: d, k => if p.1 == k then some p.2 else dget d k

/-- Membership test `k in d` for a Python dict. -/
def dhas : Dict → String → Bool
  | [], _ => false
  | p :: d, k => p.1 == k || dhas d k

/-- Python `d[k] = v`: update the value at an existing key, else append. -/
def dset : Dict → String → String → Dict
  | [], k, v => [(k, v)]
  | p :: d, k, v => if p.1 == k then (k, v) :: d else p :: dset d k v

/-- Python `d.setdefault(k, v)`: keep the existing entry when the key is
present, append the default entry when it is absent. -/
def setdefault : Dict → String → String → Dict
  | [], k, v => [(k, v)]
  | p :: d, k, v => if p.1 == k then p :: d else p :: setdefault d k v

/-- Python `{**base, **extra}` in the direction used by the source:
entries of `extra` override entries of `base`. -/
def dictMerge (base extra : Dict) : Dict :=
  extra.foldl (fun acc kv => dset acc kv.1 kv.2) base

/-- Python `text.strip()`: remove leading and trailing whitespace. -/
def pyStrip (s : String) : String :=
  ⟨((s.data.dropWhile Char.isWhitespace).reverse.dropWhile Char.isWhitespace).reverse⟩

/-- Python exception values raised by the embedded code. -/
inductive PyErr : Type
  /-- `ValueError` — invalid caller input or violated data contract. -/
  | valueError (msg : String)
  /-- a generic `Exception(...)` raised by the service code. -/
  | exception (msg : String)
  /-- FastAPI `HTTPException(status_code, detail["error"])`. -/
  | httpException (status : Nat) (code : String)
  /-- an error propagated from the Qdrant client. -/
  | qdrantError (msg : String)
  /-- an error propagated from the Cohere client. -/
  | cohereError (msg : String)
deriving DecidableEq, Repr

deriving instance DecidableEq for Except

/-- The message text carried by an exception, as `str(e)`. -/
def PyErr.msg : PyErr → String
  | .valueError m => m
  | .exception m => m
  | .httpException _ c => c
  | .qdrantError m => m
  | .cohereError m => m

/-- Qdrant distance metric (`models.Distance`). -/
inductive Distance : Type
  | COSINE
  | EUCLID
deriving DecidableEq, Repr

/-- One collection of the store: name plus its vector parameters. -/
structure Collection : Type where
  name : String
  size : Nat
  distance : Distance
deriving DecidableEq, Repr

/-- One stored point (`models.PointStruct`): id, vector, optional payload. -/
structure Point : Type where
  id : String
  vector : List Int
  payload : Option Dict
deriving DecidableEq, Repr

/-- The full state of the Qdrant store: its collections and its points,
each point tagged with the name of the collection holding it. -/
structure QdrantState : Type where
  collections : List Collection
  points : List (String × Point)
deriving DecidableEq, Repr

/-- Failure injection for the Qdrant client: each field is the error message
of the corresponding client call when that call fails, `none` when the call
succeeds against the current store state. -/
structure QdrantClient : Type where
  getCollectionsErr : Option String
  createCollectionErr : Option String
  upsertErr : Option String
  countErr : Option String
  searchErr : Option String
deriving DecidableEq, Repr

/-- A client on which every store call succeeds. -/
def okClient : QdrantClient := ⟨none, none, none, none, none⟩

/-- The collection-existence test every service variant runs on the
collection listing. -/
def hasCollection (s : QdrantState) (cname : String) : Bool :=
  s.collections.any (fun col => col.name == cname)

/-- The points of one collection, in store order. -/
def collectionPoints (s : QdrantState) (cname : String) : List Point :=
  (s.points.filter (fun q => q.1 == cname)).map (fun q => q.2)

/-- Model of `client.get_collections()`. -/
def qGetCollections (c : QdrantClient) (s : QdrantState) :
    Except PyErr (List Collection) :=
  match c.getCollectionsErr with
  | some m => .error (.qdrantError m)
  | none => .ok s.collections

/-- Model of `client.create_collection(name, VectorParams(size, distance))`. -/
def qCreateCollection (c : QdrantClient) (s : QdrantState) (name : String)
    (size : Nat) (d : Distance) : QdrantState × Except PyErr Unit :=
  match c.createCollectionErr with
  | some m => (s, .error (.qdrantError m))
  | none => ({ s with collections := s.collections ++ [⟨name, size, d⟩] }, .ok ())

/-- Insert-or-replace one point by id inside one collection. -/
def upsertPoint (pts : List (String × Point)) (cname : String) (p : Point) :
    List (String × Point) :=
  if pts.any (fun q => q.1 == cname && q.2.id == p.id) then
    pts.map (fun q => if q.1 == cname && q.2.id == p.id then (cname, p) else q)
  else pts ++ [(cname, p)]

/-- Model of `client.upsert(collection_name, points)`. -/
def qUpsert (c : QdrantClient) (s : QdrantState) (cname : String)
    (ps : List Point) : QdrantState × Except PyErr Unit :=
  match c.upsertErr with
  | some m => (s, .error (.qdrantError m))
  | none =>
    ({ s with points := ps.foldl (fun acc p => upsertPoint acc cname p) s.points },
     .ok ())

/-- Model of `client.count(collection_name)`. -/
def qCount (c : QdrantClient) (s : QdrantState) (cname : String) :
    Except PyErr Nat :=
  match c.countErr with
  | some m => .error (.qdrantError m)
  | none => .ok (collectionPoints s cname).length

/-- One similarity-search hit as returned by the store. -/
structure Hit : Type where
  id : String
  score : Int
  payload : Option Dict
deriving DecidableEq, Repr

/-- Integer dot product, the model's similarity score. -/
def dotInt : List Int → List Int → Int
  | x :: xs, y :: ys => x * y + dotInt xs ys
  | _, _ => 0

/-- Model of `client.search(...)` / `client.query_points(...)` (external
capability): returns at most `limit` hits of the collection, in store order,
each scored against the query vector. -/
def qSearch (c : QdrantClient) (s : QdrantState) (cname : String)
    (qv : List Int) (limit : Nat) : Except PyErr (List Hit) :=
  match c.searchErr with
  | some m => .error (.qdrantError m)
  | none =>
    .ok (((collectionPoints s cname).take limit).map
      (fun p => ⟨p.id, dotInt qv p.vector, p.payload⟩))

/-- The result dictionary built for each hit by the retrieval functions. -/
structure QueryResult : Type where
  id : String
  score : Int
  payload : Dict
  text : String
deriving DecidableEq, Repr

/-- The per-hit mapping shared verbatim by all three retrieval functions:
`{"id": ..., "score": ..., "payload": point.payload or {},
"text": point.payload.get("text", "") if point.payload else ""}`. -/
def toQueryResult (h : Hit) : QueryResult :=
  { id := h.id
    score := h.score
    payload := h.payload.getD []
    text := match h.payload with
      | none => ""
      | some p => (dget p "text").getD "" }

/-- The metadata-enrichment loop shared verbatim by both batched save
functions: `meta.setdefault("text", texts[i])`,
`meta.setdefault("created_at", now)`, `meta.setdefault("id", ids[i])`,
mutating the caller's dictionary in place. -/
def enrichMeta (text id now : String) (m : Dict) : Dict :=
  setdefault (setdefault (setdefault m "text" text) "created_at" now) "id" id

/-- The caller's metadata dictionaries as they stand after the enrichment
loop `for i, meta in enumerate(metadata_list): ...` of the batched saves. -/
def enrichedMetas (texts genIds : List String) (now : String) (ml : List Dict) :
    List Dict :=
  List.zipWith (fun (ti : String × String) m => enrichMeta ti.1 ti.2 now m)
    (texts.zip genIds) ml

/-- The `PointStruct` list built by `zip(ids, embeddings, metadata_list)`
in both batched saves: the enriched caller dictionaries themselves become
the stored payloads. -/
def mkPoints (genIds : List String) (es : List (List Int)) (ml1 : List Dict) :
    List Point :=
  List.zipWith (fun (ie : String × List Int) m => Point.mk ie.1 ie.2 (some m))
    (genIds.zip es) ml1

/-- The `QueryResult` produced for a stored point hit by the search: the
`text` field is the payload's "text" value, or `""` when the key or the
whole payload is absent. -/
def resultOfPoint (qv : List Int) (p : Point) : QueryResult :=
  { id := p.id
    score := dotInt qv p.vector
    payload := p.payload.getD []
    text := match p.payload with
      | none => ""
      | some d => (dget d "text").getD "" }

namespace TextEmbeddingService

/-- Embedding of `TextEmbeddingService.convert_text_to_embeddings`:
an empty input returns `[]` with only a warning; otherwise the provider
response is returned unchanged — no dimensionality check. -/
def convert_text_to_embeddings (embedResult : Except String (List (List Int)))
    (texts : List String) : Except PyErr (List (List Int)) :=
  if texts.isEmpty then .ok []
  else
    match embedResult with
    | .error m => .error (.cohereError m)
    | .ok es => .ok es

/-- Embedding of `TextEmbeddingService.convert_single_text_to_embedding`:
rejects empty text, otherwise returns the provider's first vector —
no dimensionality check. -/
def convert_single_text_to_embedding (embedResult : Except String (List Int))
    (text : String) : Except PyErr (List Int) :=
  if text = "" ∨ pyStrip text = "" then .error (.valueError "Text cannot be empty")
  else
    match embedResult with
    | .error m => .error (.cohereError m)
    | .ok e => .ok e

/-- Embedding of `TextEmbeddingService._ensure_collection_exists`: lists the
collections, creates the named collection (COSINE) when absent, and —
unlike the other two variants — catches every store error and returns
`false` instead of re-raising. -/
def ensure_collection_exists (c : QdrantClient) (s : QdrantState)
    (collection_name : String) (vector_size : Nat) : QdrantState × Bool :=
  match qGetCollections c s with
  | .error _ => (s, false)
  | .ok cols =>
    if cols.any (fun col => col.name == collection_name) then (s, true)
    else
      match qCreateCollection c s collection_name vector_size Distance.COSINE with
      | (s1, .ok _) => (s1, true)
      | (_, .error _) => (s, false)

/-- Embedding of `TextEmbeddingService.save_embeddings_to_qdrant`.
Control flow follows the source exactly: empty `texts` returns `[]`;
then embed, then ensure-collection (raising a generic `Exception` when it
reports failure), then the id- and metadata-length checks, then the
`setdefault` enrichment loop, then the batch upsert.  `genIds` stands for
the fresh `uuid4()` values, `now` for `datetime.now().isoformat()`.
On success the result carries the returned ids together with the caller's
metadata dictionaries as they stand after the call (the same objects are
used as the stored payloads). -/
def save_embeddings_to_qdrant (embedResult : Except String (List (List Int)))
    (c : QdrantClient) (s : QdrantState) (collection_name : String)
    (texts : List String) (metadata_list : Option (List Dict))
    (ids : Option (List String)) (genIds : List String) (now : String) :
    QdrantState × Except PyErr (List String × List Dict) :=
  if texts.isEmpty then (s, .ok ([], metadata_list.getD []))
  else
    match convert_text_to_embeddings embedResult texts with
    | .error e => (s, .error e)
    | .ok embeddings =>
      match ensure_collection_exists c s collection_name 1024 with
      | (s1, false) =>
        (s1, .error (.exception "Failed to ensure Qdrant collection exists"))
      | (s1, true) =>
        match (match ids with
               | none => Except.ok genIds
               | some l =>
                 if l.length ≠ texts.length then
                   Except.error (PyErr.valueError
                     "Number of IDs must match number of texts")
                 else Except.ok l) with
        | .error e => (s1, .error e)
        | .ok ids1 =>
          match (match metadata_list with
                 | none => Except.ok (texts.map (fun _ => ([] : Dict)))
                 | some l =>
                   if l.length ≠ texts.length then
                     Except.error (PyErr.valueError
                       "Number of metadata entries must match number of texts")
                   else Except.ok l) with
          | .error e => (s1, .error e)
          | .ok ml =>
            let ml1 := enrichedMetas texts ids1 now ml
            let points := mkPoints ids1 embeddings ml1
            match qUpsert c s1 collection_name points with
            | (s2, .error e) => (s2, .error e)
            | (s2, .ok _) => (s2, .ok (ids1, ml1))

/-- Embedding of `TextEmbeddingService.retrieve_similar_embeddings`:
rejects an empty query, embeds it (query mode), searches with limit
`top_k` — no validation of `top_k` — and maps each hit to a result
dictionary. -/
def retrieve_similar_embeddings (embedResult : Except String (List Int))
    (c : QdrantClient) (s : QdrantState) (collection_name : String)
    (query_text : String) (top_k : Nat) : Except PyErr (List QueryResult) :=
  if query_text = "" ∨ pyStrip query_text = "" then
    .error (.valueError "Query text cannot be empty")
  else
    match convert_single_text_to_embedding embedResult query_text with
    | .error e => .error e
    | .ok query_embedding =>
      match qSearch c s collection_name query_embedding top_k with
      | .error e => .error e
      | .ok hits => .ok (hits.map toQueryResult)

end TextEmbeddingService

namespace QdrantEmbeddingService

/-- Embedding of `QdrantEmbeddingService._ensure_collection_exists`
(`qdrant_integration.py`): lists collections, creates `text_embeddings`
(size 1024, COSINE) when absent, and re-raises any store error. -/
def ensure_collection_exists (c : QdrantClient) (s : QdrantState) :
    QdrantState × Except PyErr Unit :=
  match qGetCollections c s with
  | .error e => (s, .error e)
  | .ok cols =>
    if cols.any (fun col => col.name == "text_embeddings") then (s, .ok ())
    else
      match qCreateCollection c s "text_embeddings" 1024 Distance.COSINE with
      | (s1, .ok _) => (s1, .ok ())
      | (s1, .error e) => (s1, .error e)

/-- Embedding of `QdrantEmbeddingService.save_embeddings`: empty `texts`
returns `[]`; otherwise embed, generate ids, check the metadata length,
run the `setdefault` enrichment loop and upsert.  There is no
ensure-collection call here (the source performs it in `__init__`). -/
def save_embeddings (embedResult : Except String (List (List Int)))
    (c : QdrantClient) (s : QdrantState) (texts : List String)
    (metadata_list : Option (List Dict)) (genIds : List String) (now : String) :
    QdrantState × Except PyErr (List String × List Dict) :=
  if texts.isEmpty then (s, .ok ([], metadata_list.getD []))
  else
    match embedResult with
    | .error m => (s, .error (.cohereError m))
    | .ok embeddings =>
      match (match metadata_list with
             | none => Except.ok (texts.map (fun _ => ([] : Dict)))
             | some l =>
               if l.length ≠ texts.length then
                 Except.error (PyErr.valueError
                   ("Number of metadata entries (" ++ toString l.length ++
                    ") must match number of texts (" ++ toString texts.length ++ ")"))
               else Except.ok l) with
      | .error e => (s, .error e)
      | .ok ml =>
        let ml1 := enrichedMetas texts genIds now ml
        let points := mkPoints genIds embeddings ml1
        match qUpsert c s "text_embeddings" points with
        | (s2, .error e) => (s2, .error e)
        | (s2, .ok _) => (s2, .ok (genIds, ml1))

/-- Embedding of `QdrantEmbeddingService.retrieve_embeddings`: rejects an
empty query, embeds it (query mode, no dimensionality check), searches
with limit `top_k` and maps each hit to a result dictionary. -/
def retrieve_embeddings (embedResult : Except String (List Int))
    (c : QdrantClient) (s : QdrantState) (query_text : String) (top_k : Nat) :
    Except PyErr (List QueryResult) :=
  if query_text = "" ∨ pyStrip query_text = "" then
    .error (.valueError "Query text cannot be empty")
  else
    match embedResult with
    | .error m => .error (.cohereError m)
    | .ok query_embedding =>
      match qSearch c s "text_embeddings" query_embedding top_k with
      | .error e => .error e
      | .ok hits => .ok (hits.map toQueryResult)

/-- The dictionary returned by `health_check`, with one optional field per
key that some branch of the source puts into its result. -/
structure HealthReport : Type where
  status : String
  connection : String
  collection : Option String
  vector_count : Option Nat
  message : Option String
  error : Option String
deriving DecidableEq, Repr

/-- Embedding of `QdrantEmbeddingService.health_check`: the whole body is
wrapped in try/except, so every store failure becomes an "unhealthy"
report carrying the error text, and a missing collection becomes an
"unhealthy"/"missing" report — nothing is raised. -/
def health_check (c : QdrantClient) (s : QdrantState) : HealthReport :=
  match qGetCollections c s with
  | .error e => ⟨"unhealthy", "failed", none, none, none, some e.msg⟩
  | .ok cols =>
    if cols.any (fun col => col.name == "text_embeddings") then
      match qCount c s "text_embeddings" with
      | .error e => ⟨"unhealthy", "failed", none, none, none, some e.msg⟩
      | .ok n => ⟨"healthy", "ok", some "available", some n, none, none⟩
    else
      ⟨"unhealthy", "ok", some "missing", none,
       some "Collection text_embeddings does not exist", none⟩

end QdrantEmbeddingService

namespace StrictEmbeddingPipeline

/-- Embedding of `StrictEmbeddingPipeline._ensure_collection_exists`:
lists collections, creates `text_embeddings` (size 1024, COSINE) when
absent, re-raises any store error. -/
def ensure_collection_exists (c : QdrantClient) (s : QdrantState) :
    QdrantState × Except PyErr Unit :=
  match qGetCollections c s with
  | .error e => (s, .error e)
  | .ok cols =>
    if cols.any (fun col => col.name == "text_embeddings") then (s, .ok ())
    else
      match qCreateCollection c s "text_embeddings" 1024 Distance.COSINE with
      | (s1, .ok _) => (s1, .ok ())
      | (s1, .error e) => (s1, .error e)

/-- Embedding of `StrictEmbeddingPipeline.save_embedding`: rejects empty
text, embeds it, rejects a vector whose length is not exactly 1024,
builds the payload as the dict literal with `text`/`created_at` defaults
overridden by the caller's metadata, then upserts one point. -/
def save_embedding (embedResult : Except String (List Int)) (c : QdrantClient)
    (s : QdrantState) (text : String) (metadata : Dict) (vector_id : String)
    (now : String) : QdrantState × Except PyErr String :=
  if text = "" ∨ pyStrip text = "" then
    (s, .error (.valueError "Text cannot be empty"))
  else
    match embedResult with
    | .error m => (s, .error (.cohereError m))
    | .ok embedding =>
      if embedding.length ≠ 1024 then
        (s, .error (.valueError
          ("Expected embedding vector of size 1024, got " ++
           toString embedding.length)))
      else
        let payload := dictMerge [("text", text), ("created_at", now)] metadata
        match qUpsert c s "text_embeddings" [⟨vector_id, embedding, some payload⟩] with
        | (s1, .error e) => (s1, .error e)
        | (s1, .ok _) => (s1, .ok vector_id)

/-- Embedding of `StrictEmbeddingPipeline.retrieve_embedding`: rejects an
empty query, embeds it, rejects a query vector whose length is not
exactly 1024, then searches and maps each hit to a result dictionary. -/
def retrieve_embedding (embedResult : Except String (List Int))
    (c : QdrantClient) (s : QdrantState) (query : String) (top_k : Nat) :
    Except PyErr (List QueryResult) :=
  if query = "" ∨ pyStrip query = "" then
    .error (.valueError "Query cannot be empty")
  else
    match embedResult with
    | .error m => .error (.cohereError m)
    | .ok query_embedding =>
      if query_embedding.length ≠ 1024 then
        .error (.valueError
          ("Expected query embedding vector of size 1024, got " ++
           toString query_embedding.length))
      else
        match qSearch c s "text_embeddings" query_embedding top_k with
        | .error e => .error e
        | .ok hits => .ok (hits.map toQueryResult)

end StrictEmbeddingPipeline

namespace ApiV1

/-- Embedding of the `/search` endpoint `search_similar`
(`src/api/v1/text_embedding.py`): rejects an empty query (400
INVALID_INPUT), rejects a supplied `top_k` outside 1..100 (400
INVALID_TOP_K) before any service call, then invokes
`retrieve_similar_embeddings` with `top_k or 5`; any non-HTTP error from
the service surfaces as 500 INTERNAL_ERROR. -/
def search_similar (embedResult : Except String (List Int)) (c : QdrantClient)
    (s : QdrantState) (collection_name : String) (query_text : String)
    (top_k : Option Int) : Except PyErr (List QueryResult) :=
  if query_text = "" ∨ pyStrip query_text = "" then
    .error (.httpException 400 "INVALID_INPUT")
  else
    let run : Nat → Except PyErr (List QueryResult) := fun k =>
      match TextEmbeddingService.retrieve_similar_embeddings embedResult c s
          collection_name query_text k with
      | .ok rs => .ok rs
      | .error (.httpException a b) => .error (.httpException a b)
      | .error _ => .error (.httpException 500 "INTERNAL_ERROR")
    match top_k with
    | some v =>
      if v < 1 ∨ v > 100 then .error (.httpException 400 "INVALID_TOP_K")
      else run (if v = 0 then 5 else v.toNat)
    | none => run 5

end ApiV1

/-! ## Dictionary lemmas -/

theorem dget_eq_none_of_not_mem_keys (d : Dict) (k : String)
    (h : k ∉ d.map Prod.fst) : dget d k = none := by
  induction d with
  | nil => rfl
  | cons p d ih =>
    simp only [List.map_cons, List.mem_cons] at h
    push_neg at h
    simp only [dget]
    rw [if_neg, ih h.2]
    simp only [beq_iff_eq]
    exact fun hpk => h.1 hpk.symm

theorem dhas_eq_isSome_dget (d : Dict) (k : String) :
    dhas d k = (dget d k).isSome := by
  induction d with
  | nil => rfl
  | cons p d ih =>
    simp only [dhas, dget]
    by_cases h : (p.1 == k) = true
    · simp [h]
    · have hf : (p.1 == k) = false := by simpa using h
      rw [if_neg h, hf, Bool.false_or, ih]

theorem dget_setdefault_self (d : Dict) (k v : String) :
    dget (setdefault d k v) k = some ((dget d k).getD v) := by
  induction d with
  | nil => simp [setdefault, dget]
  | cons p d ih =>
    by_cases h : (p.1 == k) = true
    · simp [setdefault, dget, h]
    · simp [setdefault, dget, h, ih]

theorem dget_setdefault_ne (d : Dict) (k v k' : String) (h : k' ≠ k) :
    dget (setdefault d k v) k' = dget d k' := by
  induction d with
  | nil =>
    simp only [setdefault, dget]
    rw [if_neg]
    simp only [beq_iff_eq]
    exact fun hk => h hk.symm
  | cons p d ih =>
    simp only [setdefault]
    by_cases hpk : p.1 == k
    · rw [if_pos hpk]
    · rw [if_neg (by simp_all), dget, dget, ih]

theorem dget_dset_self (d : Dict) (k v : String) :
    dget (dset d k v) k = some v := by
  induction d with
  | nil => simp [dset, dget]
  | cons p d ih =>
    simp only [dset]
    by_cases h : p.1 == k
    · rw [if_pos h, dget, if_pos (by simp)]
    · rw [if_neg (by simp_all), dget, if_neg (by simp_all), ih]

theorem dget_dset_ne (d : Dict) (k v k' : String) (h : k' ≠ k) :
    dget (dset d k v) k' = dget d k' := by
  have hkk : (k == k') = false := by
    simp only [beq_eq_false_iff_ne, ne_eq]
    exact fun he => h he.symm
  induction d with
  | nil => simp [dset, dget, hkk]
  | cons p d ih =>
    by_cases hp : (p.1 == k) = true
    · have hp1 : (p.1 == k') = false := by
        have hpe : p.1 = k := by simpa using hp
        rw [hpe]
        exact hkk
      simp [dset, dget, hp, hp1, hkk]
    · simp [dset, dget, hp, ih]

theorem dget_dictMerge (extra : Dict) (base : Dict) (k : String)
    (h : (extra.map Prod.fst).Nodup) :
    dget (dictMerge base extra) k =
      match dget extra k with
      | some v => some v
      | none => dget base k := by
  induction extra generalizing base with
  | nil => simp [dictMerge, dget]
  | cons p rest ih =>
    simp only [List.map_cons, List.nodup_cons] at h
    have step : dictMerge base (p :: rest) = dictMerge (dset base p.1 p.2) rest := rfl
    rw [step, ih _ h.2]
    by_cases hk : p.1 == k
    · have hkk : p.1 = k := by simpa [beq_iff_eq] using hk
      have hrest : dget rest k = none := by
        apply dget_eq_none_of_not_mem_keys
        rw [← hkk]
        exact h.1
      rw [hrest, dget, if_pos hk]
      subst hkk
      simp [dget_dset_self]
    · have hkk : k ≠ p.1 := by
        simp only [beq_iff_eq] at hk
        exact fun he => hk he.symm
      rw [dget, if_neg (by simp_all), dget_dset_ne _ _ _ _ hkk]

/-! ## Enriched-metadata lemmas (the `setdefault` loop of the batched saves) -/

theorem dget_enrichMeta_text (t i now : String) (m : Dict) :
    dget (enrichMeta t i now m) "text" = some ((dget m "text").getD t) := by
  unfold enrichMeta
  rw [dget_setdefault_ne _ _ _ _ (by decide), dget_setdefault_ne _ _ _ _ (by decide),
    dget_setdefault_self]

theorem dget_enrichMeta_created_at (t i now : String) (m : Dict) :
    dget (enrichMeta t i now m) "created_at" = some ((dget m "created_at").getD now) := by
  unfold enrichMeta
  rw [dget_setdefault_ne _ _ _ _ (by decide), dget_setdefault_self,
    dget_setdefault_ne _ _ _ _ (by decide)]

theorem dget_enrichMeta_id (t i now : String) (m : Dict) :
    dget (enrichMeta t i now m) "id" = some ((dget m "id").getD i) := by
  unfold enrichMeta
  rw [dget_setdefault_self, dget_setdefault_ne _ _ _ _ (by decide),
    dget_setdefault_ne _ _ _ _ (by decide)]

theorem dget_setdefault_of_isSome (d : Dict) (k v k' : String)
    (h : (dget d k').isSome = true) :
    dget (setdefault d k v) k' = dget d k' := by
  by_cases hk : k' = k
  · subst hk
    rw [dget_setdefault_self]
    obtain ⟨w, hw⟩ := Option.isSome_iff_exists.mp h
    rw [hw]
    rfl
  · exact dget_setdefault_ne _ _ _ _ hk

theorem dget_enrichMeta_of_isSome (t i now k : String) (m : Dict)
    (h : (dget m k).isSome = true) :
    dget (enrichMeta t i now m) k = dget m k := by
  unfold enrichMeta
  have h1 : dget (setdefault m "text" t) k = dget m k :=
    dget_setdefault_of_isSome _ _ _ _ h
  have h2 : dget (setdefault (setdefault m "text" t) "created_at" now) k
      = dget (setdefault m "text" t) k := by
    apply dget_setdefault_of_isSome
    rw [h1]
    exact h
  have h3 : dget (setdefault (setdefault (setdefault m "text" t) "created_at" now) "id" i) k
      = dget (setdefault (setdefault m "text" t) "created_at" now) k := by
    apply dget_setdefault_of_isSome
    rw [h2, h1]
    exact h
  rw [h3, h2, h1]

/-! ## Store-operation lemmas -/

theorem ensure_tes_present (c : QdrantClient) (s : QdrantState) (cn : String)
    (vs : Nat) (hg : c.getCollectionsErr = none)
    (hp : hasCollection s cn = true) :
    TextEmbeddingService.ensure_collection_exists c s cn vs = (s, true) := by
  simp only [hasCollection] at hp
  simp [TextEmbeddingService.ensure_collection_exists, qGetCollections, hg, hp]

theorem ensure_tes_absent (c : QdrantClient) (s : QdrantState) (cn : String)
    (vs : Nat) (hg : c.getCollectionsErr = none)
    (hc : c.createCollectionErr = none) (ha : hasCollection s cn = false) :
    TextEmbeddingService.ensure_collection_exists c s cn vs =
      ({ s with collections := s.collections ++ [⟨cn, vs, Distance.COSINE⟩] }, true) := by
  simp only [hasCollection] at ha
  simp [TextEmbeddingService.ensure_collection_exists, qGetCollections,
    qCreateCollection, hg, hc, ha]

theorem ensure_tes_points (c : QdrantClient) (s : QdrantState) (cn : String)
    (vs : Nat) :
    (TextEmbeddingService.ensure_collection_exists c s cn vs).1.points = s.points := by
  unfold TextEmbeddingService.ensure_collection_exists qGetCollections qCreateCollection
  cases c.getCollectionsErr with
  | some m => rfl
  | none =>
    by_cases h : s.collections.any (fun col => col.name == cn) = true
    · simp [h]
    · cases hc : c.createCollectionErr with
      | some m => simp [h, hc]
      | none => simp [h, hc]

theorem ensure_qi_present (c : QdrantClient) (s : QdrantState)
    (hg : c.getCollectionsErr = none)
    (hp : hasCollection s "text_embeddings" = true) :
    QdrantEmbeddingService.ensure_collection_exists c s = (s, .ok ()) := by
  simp only [hasCollection] at hp
  simp [QdrantEmbeddingService.ensure_collection_exists, qGetCollections, hg, hp]

theorem ensure_qi_absent (c : QdrantClient) (s : QdrantState)
    (hg : c.getCollectionsErr = none) (hc : c.createCollectionErr = none)
    (ha : hasCollection s "text_embeddings" = false) :
    QdrantEmbeddingService.ensure_collection_exists c s =
      ({ s with collections :=
          s.collections ++ [⟨"text_embeddings", 1024, Distance.COSINE⟩] }, .ok ()) := by
  simp only [hasCollection] at ha
  simp [QdrantEmbeddingService.ensure_collection_exists, qGetCollections,
    qCreateCollection, hg, hc, ha]

theorem ensure_strict_present (c : QdrantClient) (s : QdrantState)
    (hg : c.getCollectionsErr = none)
    (hp : hasCollection s "text_embeddings" = true) :
    StrictEmbeddingPipeline.ensure_collection_exists c s = (s, .ok ()) := by
  simp only [hasCollection] at hp
  simp [StrictEmbeddingPipeline.ensure_collection_exists, qGetCollections, hg, hp]

theorem ensure_strict_absent (c : QdrantClient) (s : QdrantState)
    (hg : c.getCollectionsErr = none) (hc : c.createCollectionErr = none)
    (ha : hasCollection s "text_embeddings" = false) :
    StrictEmbeddingPipeline.ensure_collection_exists c s =
      ({ s with collections :=
          s.collections ++ [⟨"text_embeddings", 1024, Distance.COSINE⟩] }, .ok ()) := by
  simp only [hasCollection] at ha
  simp [StrictEmbeddingPipeline.ensure_collection_exists, qGetCollections,
    qCreateCollection, hg, hc, ha]

theorem upsertPoint_fresh (pts : List (String × Point)) (cname : String)
    (p : Point) (h : ∀ q ∈ pts, q.2.id ≠ p.id) :
    upsertPoint pts cname p = pts ++ [(cname, p)] := by
  have hany : pts.any (fun q => q.1 == cname && q.2.id == p.id) = false := by
    rw [List.any_eq_false]
    intro q hq
    simp only [Bool.and_eq_true, beq_iff_eq, not_and]
    intro _
    exact h q hq
  unfold upsertPoint
  rw [hany]
  simp

theorem foldl_upsert_fresh (cname : String) :
    ∀ (ps : List Point) (base : List (String × Point)),
      (∀ q ∈ base, ∀ p ∈ ps, q.2.id ≠ p.id) →
      (ps.map Point.id).Nodup →
      ps.foldl (fun acc p => upsertPoint acc cname p) base
        = base ++ ps.map (fun p => (cname, p)) := by
  intro ps
  induction ps with
  | nil =>
    intro base _ _
    simp
  | cons p rest ih =>
    intro base hdisj hnd
    simp only [List.map_cons, List.nodup_cons] at hnd
    simp only [List.foldl_cons]
    rw [upsertPoint_fresh base cname p (fun q hq => hdisj q hq p (by simp))]
    rw [ih (base ++ [(cname, p)]) ?_ hnd.2]
    · simp
    · intro q hq p' hp'
      rcases List.mem_append.mp hq with h1 | h2
      · exact hdisj q h1 p' (List.mem_cons_of_mem _ hp')
      · simp only [List.mem_singleton] at h2
        subst h2
        intro he
        exact hnd.1 (he ▸ List.mem_map_of_mem Point.id hp')

theorem of_mem_zipWith {α β γ : Type} (f : α → β → γ) :
    ∀ (as : List α) (bs : List β) (x : γ), x ∈ List.zipWith f as bs →
      ∃ a ∈ as, ∃ b ∈ bs, x = f a b := by
  intro as
  induction as with
  | nil =>
    intro bs x h
    simp at h
  | cons a rest ih =>
    intro bs x h
    cases bs with
    | nil => simp at h
    | cons b bs' =>
      simp only [List.zipWith_cons_cons, List.mem_cons] at h
      rcases h with h | h
      · exact ⟨a, by simp, b, by simp, h⟩
      · obtain ⟨a', ha', b', hb', he⟩ := ih bs' x h
        exact ⟨a', by simp [ha'], b', by simp [hb'], he⟩

theorem getElem?_zipWith {α β γ : Type} (f : α → β → γ) :
    ∀ (as : List α) (bs : List β) (i : Nat),
      (List.zipWith f as bs)[i]? = as[i]?.bind (fun a => bs[i]?.map (f a)) := by
  intro as
  induction as with
  | nil =>
    intro bs i
    simp
  | cons a rest ih =>
    intro bs i
    cases bs with
    | nil => simp
    | cons b bs' =>
      cases i with
      | zero => simp
      | succ n => simpa using ih bs' n

/-! ## Claim theorems -/

theorem trim_empty_not_or (q : String) (hq : pyStrip q ≠ "") :
    ¬(q = "" ∨ pyStrip q = "") := by
  rintro (h | h)
  · apply hq
    rw [h]
    rfl
  · exact hq h

/-- C2 (amended): the strict pipeline validates provider vectors — a vector
whose length is not 1024 makes `save_embedding` fail with a dimensionality
`ValueError` leaving the store unchanged, and makes `retrieve_embedding`
fail before any search, for every client outcome; it is never truncated,
padded, persisted or searched with.  The `TextEmbeddingService` path,
however, performs no dimensionality validation (see
`service_persists_wrong_dimension`). -/
theorem strict_dimension_check (c : QdrantClient) (s : QdrantState)
    (v : List Int) (t q : String) (m : Dict) (vid now : String) (k : Nat)
    (hv : v.length ≠ 1024) (ht : pyStrip t ≠ "") (hq : pyStrip q ≠ "") :
    StrictEmbeddingPipeline.save_embedding (.ok v) c s t m vid now
      = (s, .error (.valueError
          ("Expected embedding vector of size 1024, got " ++ toString v.length))) ∧
    StrictEmbeddingPipeline.retrieve_embedding (.ok v) c s q k
      = .error (.valueError
          ("Expected query embedding vector of size 1024, got " ++ toString v.length)) := by
  constructor
  · unfold StrictEmbeddingPipeline.save_embedding
    rw [if_neg (trim_empty_not_or t ht)]
    simp [hv]
  · unfold StrictEmbeddingPipeline.retrieve_embedding
    rw [if_neg (trim_empty_not_or q hq)]
    simp [hv]

theorem strict_dimension_check_witness :
    StrictEmbeddingPipeline.save_embedding (.ok [1, 2]) okClient ⟨[], []⟩
        "hello" [] "vid" "now"
      = (⟨[], []⟩, .error (.valueError
          "Expected embedding vector of size 1024, got 2")) ∧
    StrictEmbeddingPipeline.retrieve_embedding (.ok [1, 2]) okClient ⟨[], []⟩
        "hello" 3
      = .error (.valueError
          "Expected query embedding vector of size 1024, got 2") :=
  strict_dimension_check okClient ⟨[], []⟩ [1, 2] "hello" "hello" [] "vid" "now" 3
    (by decide) (by decide) (by decide)

/-- C2 counterexample: the claim is false as stated — on the
`TextEmbeddingService` document-save path a 2-dimensional provider vector
raises no `ContractViolation`: the save succeeds and the wrong-sized vector
is persisted as-is. -/
theorem service_persists_wrong_dimension :
    ((TextEmbeddingService.save_embeddings_to_qdrant (.ok [[5, 7]]) okClient
        ⟨[⟨"text_embeddings", 1024, Distance.COSINE⟩], []⟩ "text_embeddings"
        ["some text"] none none ["id1"] "now").2
      = .ok (["id1"], [[("text", "some text"), ("created_at", "now"), ("id", "id1")]])) ∧
    ((TextEmbeddingService.save_embeddings_to_qdrant (.ok [[5, 7]]) okClient
        ⟨[⟨"text_embeddings", 1024, Distance.COSINE⟩], []⟩ "text_embeddings"
        ["some text"] none none ["id1"] "now").1.points
      = [("text_embeddings",
          ⟨"id1", [5, 7],
           some [("text", "some text"), ("created_at", "now"), ("id", "id1")]⟩)]) := by
  decide

/-- C4 (amended): the single-text save and all three retrieval functions
reject empty or whitespace-only input with `InvalidInput` (`ValueError`),
before touching provider or store; the batched saves, however, accept an
empty `texts` list, returning an empty id list without error and leaving
the store untouched (vacuous success), and apply no per-element
whitespace validation (see `batched_save_accepts_empty_and_whitespace`). -/
theorem empty_input_validation (c : QdrantClient) (s : QdrantState)
    (t q cn now vid : String) (m : Dict) (k : Nat)
    (e1 e2 : Except String (List Int)) (eb : Except String (List (List Int)))
    (ml : Option (List Dict)) (ids : Option (List String)) (genIds : List String)
    (ht : pyStrip t = "") (hq : pyStrip q = "") :
    StrictEmbeddingPipeline.save_embedding e1 c s t m vid now
      = (s, .error (.valueError "Text cannot be empty")) ∧
    TextEmbeddingService.retrieve_similar_embeddings e2 c s cn q k
      = .error (.valueError "Query text cannot be empty") ∧
    QdrantEmbeddingService.retrieve_embeddings e2 c s q k
      = .error (.valueError "Query text cannot be empty") ∧
    StrictEmbeddingPipeline.retrieve_embedding e2 c s q k
      = .error (.valueError "Query cannot be empty") ∧
    TextEmbeddingService.save_embeddings_to_qdrant eb c s cn [] ml ids genIds now
      = (s, .ok ([], ml.getD [])) ∧
    QdrantEmbeddingService.save_embeddings eb c s [] ml genIds now
      = (s, .ok ([], ml.getD [])) := by
  refine ⟨?_, ?_, ?_, ?_, ?_, ?_⟩
  · unfold StrictEmbeddingPipeline.save_embedding
    rw [if_pos (Or.inr ht)]
  · unfold TextEmbeddingService.retrieve_similar_embeddings
    rw [if_pos (Or.inr hq)]
  · unfold QdrantEmbeddingService.retrieve_embeddings
    rw [if_pos (Or.inr hq)]
  · unfold StrictEmbeddingPipeline.retrieve_embedding
    rw [if_pos (Or.inr hq)]
  · unfold TextEmbeddingService.save_embeddings_to_qdrant
    rw [if_pos (by rfl)]
  · unfold QdrantEmbeddingService.save_embeddings
    rw [if_pos (by rfl)]

theorem empty_input_validation_witness :
    StrictEmbeddingPipeline.save_embedding (.ok []) okClient ⟨[], []⟩ "" []
        "vid" "now"
      = (⟨[], []⟩, .error (.valueError "Text cannot be empty")) ∧
    TextEmbeddingService.retrieve_similar_embeddings (.ok []) okClient ⟨[], []⟩
        "text_embeddings" "" 5
      = .error (.valueError "Query text cannot be empty") ∧
    QdrantEmbeddingService.retrieve_embeddings (.ok []) okClient ⟨[], []⟩ "" 5
      = .error (.valueError "Query text cannot be empty") ∧
    StrictEmbeddingPipeline.retrieve_embedding (.ok []) okClient ⟨[], []⟩ "" 5
      = .error (.valueError "Query cannot be empty") ∧
    TextEmbeddingService.save_embeddings_to_qdrant (.ok []) okClient ⟨[], []⟩
        "text_embeddings" [] none none [] "now"
      = (⟨[], []⟩, .ok ([], [])) ∧
    QdrantEmbeddingService.save_embeddings (.ok []) okClient ⟨[], []⟩ [] none
        [] "now"
      = (⟨[], []⟩, .ok ([], [])) :=
  empty_input_validation okClient ⟨[], []⟩ "" "" "text_embeddings" "now" "vid"
    [] 5 (.ok []) (.ok []) (.ok []) none none [] (by decide) (by decide)

/-- C4 counterexample: the claim is false as stated — a batched save with an
empty texts list succeeds vacuously (no `InvalidInput`), and a batched
save whose only text is whitespace succeeds and saves a record. -/
theorem batched_save_accepts_empty_and_whitespace :
    ((TextEmbeddingService.save_embeddings_to_qdrant (.ok []) okClient ⟨[], []⟩
        "text_embeddings" [] none none [] "now").2 = .ok ([], [])) ∧
    ((TextEmbeddingService.save_embeddings_to_qdrant (.ok [[1]]) okClient
        ⟨[⟨"text_embeddings", 1024, Distance.COSINE⟩], []⟩ "text_embeddings"
        [" "] none none ["id1"] "now").2
      = .ok (["id1"], [[("text", " "), ("created_at", "now"), ("id", "id1")]])) := by
  decide

/-- C8 (amended): the HTTP search endpoint rejects a supplied `top_k`
outside 1..100 with `InvalidInput` (HTTP 400, INVALID_TOP_K) — the result
is that error for every provider response, client and store state, so the
rejection happens before any embedding or search; the service-level
retrieval function, however, applies no `top_k` validation (see
`service_no_topk_validation`). -/
theorem search_topk_validation (e : Except String (List Int))
    (c : QdrantClient) (s : QdrantState) (cn q : String) (v : Int)
    (hq : pyStrip q ≠ "") (hv : v < 1 ∨ v > 100) :
    ApiV1.search_similar e c s cn q (some v)
      = .error (.httpException 400 "INVALID_TOP_K") := by
  unfold ApiV1.search_similar
  rw [if_neg (trim_empty_not_or q hq)]
  exact if_pos hv

theorem search_topk_validation_witness :
    ApiV1.search_similar (.ok [1]) okClient ⟨[], []⟩ "text_embeddings"
        "hello" (some 200)
      = .error (.httpException 400 "INVALID_TOP_K") :=
  search_topk_validation (.ok [1]) okClient ⟨[], []⟩ "text_embeddings" "hello"
    200 (by decide) (by decide)

/-- C8 counterexample: the claim is false as stated — the service-level
retrieval (`retrieve_similar_embeddings`) called with `top_k = 200` or
`top_k = 0` performs the embedding and the search and returns a result,
raising no `InvalidInput`. -/
theorem service_no_topk_validation :
    (TextEmbeddingService.retrieve_similar_embeddings (.ok [1]) okClient
        ⟨[⟨"text_embeddings", 1024, Distance.COSINE⟩],
         [("text_embeddings", ⟨"p1", [2], some [("text", "hi")]⟩)]⟩
        "text_embeddings" "hello" 200
      = .ok [⟨"p1", 2, [("text", "hi")], "hi"⟩]) ∧
    (TextEmbeddingService.retrieve_similar_embeddings (.ok [1]) okClient
        ⟨[⟨"text_embeddings", 1024, Distance.COSINE⟩],
         [("text_embeddings", ⟨"p1", [2], some [("text", "hi")]⟩)]⟩
        "text_embeddings" "hello" 0
      = .ok []) := by
  decide

/-- C9: `health_check` never raises: it is a total function into status
reports; every report is "healthy" or "unhealthy" with a detail present,
a connection failure on the collection listing yields the
"unhealthy"/"failed" report carrying the error text, and so does a count
failure on an existing collection. -/
theorem health_check_never_raises (c : QdrantClient) (s : QdrantState)
    (m : String) (o1 o2 o3 o4 : Option String) :
    ((QdrantEmbeddingService.health_check c s).status = "healthy" ∨
      ((QdrantEmbeddingService.health_check c s).status = "unhealthy" ∧
        ((QdrantEmbeddingService.health_check c s).error.isSome = true ∨
         (QdrantEmbeddingService.health_check c s).message.isSome = true))) ∧
    (QdrantEmbeddingService.health_check ⟨some m, o1, o2, o3, o4⟩ s
      = ⟨"unhealthy", "failed", none, none, none, some m⟩) ∧
    (QdrantEmbeddingService.health_check ⟨none, o1, o2, some m, o4⟩
        ⟨[⟨"text_embeddings", 1024, Distance.COSINE⟩], []⟩
      = ⟨"unhealthy", "failed", none, none, none, some m⟩) := by
  refine ⟨?_, ?_, ?_⟩
  · cases hg : c.getCollectionsErr with
    | some mm =>
      simp [QdrantEmbeddingService.health_check, qGetCollections, hg]
    | none =>
      by_cases hcol :
          s.collections.any (fun col => col.name == "text_embeddings") = true
      · cases hc : c.countErr with
        | some mm =>
          simp [QdrantEmbeddingService.health_check, qGetCollections, qCount,
            hg, hcol, hc]
        | none =>
          simp [QdrantEmbeddingService.health_check, qGetCollections, qCount,
            hg, hcol, hc]
      · have hcol' :
            s.collections.any (fun col => col.name == "text_embeddings") = false := by
          simpa using hcol
        simp [QdrantEmbeddingService.health_check, qGetCollections, hg, hcol']
  · rfl
  · rfl

/-- C5: `EnsureReady` is idempotent: with a working store it creates the
collection — with the configured vector size and the cosine metric —
exactly when the collection is absent from the listing, accepts a present
collection as-is with no parameter validation and no second creation, and
run twice in sequence on a fresh collection both calls succeed and exactly
one collection of that name exists — for the service-layer and the
strict-pipeline variants. -/
theorem ensureReady_idempotent (c : QdrantClient) (s : QdrantState)
    (cn : String) (vs : Nat)
    (hg : c.getCollectionsErr = none) (hc : c.createCollectionErr = none) :
    (hasCollection s cn = true →
      TextEmbeddingService.ensure_collection_exists c s cn vs = (s, true)) ∧
    (hasCollection s cn = false →
      TextEmbeddingService.ensure_collection_exists c s cn vs =
        ({ s with collections := s.collections ++ [⟨cn, vs, Distance.COSINE⟩] }, true) ∧
      TextEmbeddingService.ensure_collection_exists c
          (TextEmbeddingService.ensure_collection_exists c s cn vs).1 cn vs
        = ((TextEmbeddingService.ensure_collection_exists c s cn vs).1, true) ∧
      ((TextEmbeddingService.ensure_collection_exists c s cn vs).1.collections.filter
          (fun col => col.name == cn)).length = 1) ∧
    (hasCollection s "text_embeddings" = true →
      StrictEmbeddingPipeline.ensure_collection_exists c s = (s, .ok ())) ∧
    (hasCollection s "text_embeddings" = false →
      StrictEmbeddingPipeline.ensure_collection_exists c s =
        ({ s with collections :=
            s.collections ++ [⟨"text_embeddings", 1024, Distance.COSINE⟩] }, .ok ()) ∧
      StrictEmbeddingPipeline.ensure_collection_exists c
          (StrictEmbeddingPipeline.ensure_collection_exists c s).1
        = ((StrictEmbeddingPipeline.ensure_collection_exists c s).1, .ok ())) := by
  refine ⟨fun hp => ensure_tes_present c s cn vs hg hp, fun ha => ?_,
    fun hp => ensure_strict_present c s hg hp, fun ha => ?_⟩
  · have h1 := ensure_tes_absent c s cn vs hg hc ha
    have hs1 : (TextEmbeddingService.ensure_collection_exists c s cn vs).1
        = { s with collections := s.collections ++ [⟨cn, vs, Distance.COSINE⟩] } := by
      rw [h1]
    have hpres : hasCollection
        { s with collections := s.collections ++ [⟨cn, vs, Distance.COSINE⟩] } cn = true := by
      simp [hasCollection, List.any_append]
    have hnone : ∀ col ∈ s.collections, ¬((fun col => col.name == cn) col = true) := by
      rw [hasCollection, List.any_eq_false] at ha
      exact ha
    refine ⟨h1, ?_, ?_⟩
    · rw [hs1]
      exact ensure_tes_present c _ cn vs hg hpres
    · rw [hs1]
      have hnil : s.collections.filter (fun col => col.name == cn) = [] :=
        List.filter_eq_nil_iff.mpr hnone
      simp [List.filter_append, hnil]
  · have h1 := ensure_strict_absent c s hg hc ha
    have hs1 : (StrictEmbeddingPipeline.ensure_collection_exists c s).1
        = { s with collections :=
            s.collections ++ [⟨"text_embeddings", 1024, Distance.COSINE⟩] } := by
      rw [h1]
    have hpres : hasCollection
        { s with collections :=
            s.collections ++ [⟨"text_embeddings", 1024, Distance.COSINE⟩] }
          "text_embeddings" = true := by
      simp [hasCollection, List.any_append]
    refine ⟨h1, ?_⟩
    rw [hs1]
    exact ensure_strict_present c _ hg hpres

theorem ensureReady_idempotent_witness :
    TextEmbeddingService.ensure_collection_exists okClient ⟨[], []⟩
        "text_embeddings" 1024
      = (⟨[⟨"text_embeddings", 1024, Distance.COSINE⟩], []⟩, true) ∧
    StrictEmbeddingPipeline.ensure_collection_exists okClient ⟨[], []⟩
      = (⟨[⟨"text_embeddings", 1024, Distance.COSINE⟩], []⟩, .ok ()) :=
  ⟨((ensureReady_idempotent okClient ⟨[], []⟩ "text_embeddings" 1024 rfl rfl).2.1
      rfl).1,
   ((ensureReady_idempotent okClient ⟨[], []⟩ "text_embeddings" 1024 rfl rfl).2.2.2
      rfl).1⟩

/-- C3: an error during the collection existence check or creation is fatal
and surfaces to the caller, and no read or write is performed against the
unconfirmed collection: the `qdrant_integration` variant re-raises the
store error with the store untouched, and the service-layer batched save
turns the failed check into a raised exception with nothing upserted and
the store state returned exactly as it was — no fallback assumes the
collection exists. -/
theorem ensure_error_fatal (c : QdrantClient) (s : QdrantState)
    (m cn now : String) (texts : List String) (ml : Option (List Dict))
    (ids : Option (List String)) (genIds : List String) (es : List (List Int))
    (hne : texts ≠ [])
    (hfail : c.getCollectionsErr = some m ∨
      (c.getCollectionsErr = none ∧ c.createCollectionErr = some m ∧
       hasCollection s cn = false ∧ hasCollection s "text_embeddings" = false)) :
    QdrantEmbeddingService.ensure_collection_exists c s
      = (s, .error (.qdrantError m)) ∧
    TextEmbeddingService.save_embeddings_to_qdrant (.ok es) c s cn texts ml ids
        genIds now
      = (s, .error (.exception "Failed to ensure Qdrant collection exists")) := by
  have htne : texts.isEmpty = false := by
    cases texts with
    | nil => exact absurd rfl hne
    | cons a l => rfl
  have hensure : TextEmbeddingService.ensure_collection_exists c s cn 1024
      = (s, false) := by
    rcases hfail with h | ⟨h1, h2, h3, _⟩
    · simp [TextEmbeddingService.ensure_collection_exists, qGetCollections, h]
    · simp only [hasCollection] at h3
      simp [TextEmbeddingService.ensure_collection_exists, qGetCollections,
        qCreateCollection, h1, h2, h3]
  constructor
  · rcases hfail with h | ⟨h1, h2, _, h4⟩
    · simp [QdrantEmbeddingService.ensure_collection_exists, qGetCollections, h]
    · simp only [hasCollection] at h4
      simp [QdrantEmbeddingService.ensure_collection_exists, qGetCollections,
        qCreateCollection, h1, h2, h4]
  · simp [TextEmbeddingService.save_embeddings_to_qdrant,
      TextEmbeddingService.convert_text_to_embeddings, htne, hensure]

theorem ensure_error_fatal_witness :
    QdrantEmbeddingService.ensure_collection_exists ⟨some "boom", none, none, none, none⟩
        ⟨[], []⟩
      = (⟨[], []⟩, .error (.qdrantError "boom")) ∧
    TextEmbeddingService.save_embeddings_to_qdrant (.ok [[1]])
        ⟨some "boom", none, none, none, none⟩ ⟨[], []⟩ "text_embeddings" ["a"]
        none none ["id1"] "now"
      = (⟨[], []⟩, .error (.exception "Failed to ensure Qdrant collection exists")) :=
  ensure_error_fatal ⟨some "boom", none, none, none, none⟩ ⟨[], []⟩ "boom"
    "text_embeddings" "now" ["a"] none none ["id1"] [[1]] (by decide) (Or.inl rfl)

/-- C1 (amended): a batched save whose metadata list length differs from the
texts' length fails with `InvalidInput` (`ValueError`) and upserts no
record — the stored points are unchanged — but the service-layer variant's
pre-flight ensure step may already have created the (empty) collection, so
the full store state is not necessarily unchanged (see
`save_length_mismatch_changes_store`); the `qdrant_integration` variant
leaves the store fully unchanged. -/
theorem save_length_mismatch (c : QdrantClient) (s : QdrantState)
    (cn now t1 t2 : String) (ml : List Dict) (genIds : List String)
    (es : List (List Int))
    (hg : c.getCollectionsErr = none) (hc : c.createCollectionErr = none)
    (hml : ml.length ≠ 2) :
    ((TextEmbeddingService.save_embeddings_to_qdrant (.ok es) c s cn [t1, t2]
        (some ml) none genIds now).2
      = .error (.valueError "Number of metadata entries must match number of texts") ∧
     (TextEmbeddingService.save_embeddings_to_qdrant (.ok es) c s cn [t1, t2]
        (some ml) none genIds now).1.points = s.points) ∧
    QdrantEmbeddingService.save_embeddings (.ok es) c s [t1, t2] (some ml)
        genIds now
      = (s, .error (.valueError
          ("Number of metadata entries (" ++ toString ml.length ++
           ") must match number of texts (" ++ toString ([t1, t2].length) ++ ")"))) := by
  have h2 : ml.length ≠ [t1, t2].length := by simpa using hml
  constructor
  · by_cases hp : hasCollection s cn = true
    · have he := ensure_tes_present c s cn 1024 hg hp
      constructor <;>
        simp [TextEmbeddingService.save_embeddings_to_qdrant,
          TextEmbeddingService.convert_text_to_embeddings, he, h2, hml]
    · have he := ensure_tes_absent c s cn 1024 hg hc (by simpa using hp)
      constructor <;>
        simp [TextEmbeddingService.save_embeddings_to_qdrant,
          TextEmbeddingService.convert_text_to_embeddings, he, h2, hml]
  · simp [QdrantEmbeddingService.save_embeddings, h2, hml]

theorem save_length_mismatch_witness :
    ((TextEmbeddingService.save_embeddings_to_qdrant (.ok [[1], [2]]) okClient
        ⟨[], []⟩ "text_embeddings" ["t1", "t2"] (some [[]]) none ["a", "b"]
        "now").2
      = .error (.valueError "Number of metadata entries must match number of texts") ∧
     (TextEmbeddingService.save_embeddings_to_qdrant (.ok [[1], [2]]) okClient
        ⟨[], []⟩ "text_embeddings" ["t1", "t2"] (some [[]]) none ["a", "b"]
        "now").1.points = []) ∧
    QdrantEmbeddingService.save_embeddings (.ok [[1], [2]]) okClient ⟨[], []⟩
        ["t1", "t2"] (some [[]]) ["a", "b"] "now"
      = (⟨[], []⟩, .error (.valueError
          "Number of metadata entries (1) must match number of texts (2)")) :=
  save_length_mismatch okClient ⟨[], []⟩ "text_embeddings" "now" "t1" "t2"
    [[]] ["a", "b"] [[1], [2]] rfl rfl (by decide)

/-- C1 counterexample: the claim is false as stated — with the collection
absent, the mismatched batched save raises `InvalidInput` but the store
state does change: the pre-flight ensure step has created the collection. -/
theorem save_length_mismatch_changes_store :
    ((TextEmbeddingService.save_embeddings_to_qdrant (.ok [[1], [2]]) okClient
        ⟨[], []⟩ "text_embeddings" ["t1", "t2"] (some [[]]) none ["a", "b"]
        "now").2
      = .error (.valueError "Number of metadata entries must match number of texts")) ∧
    ((TextEmbeddingService.save_embeddings_to_qdrant (.ok [[1], [2]]) okClient
        ⟨[], []⟩ "text_embeddings" ["t1", "t2"] (some [[]]) none ["a", "b"]
        "now").1
      ≠ ⟨[], []⟩) := by
  decide

/-- C7: for a non-empty query and positive `k`, retrieval returns `.ok` with
exactly one `QueryResult` per store hit of the collection, in store order
(`resultOfPoint`: the `text` field is the payload's "text" value, or `""`
when the key or the payload is absent, never an error); the number of
results is at most `k`; and an empty collection yields `.ok []`, not an
error — for `retrieve_similar_embeddings` and `retrieve_embeddings`. -/
theorem retrieve_maps_hits (c : QdrantClient) (s : QdrantState) (cn q : String)
    (qv : List Int) (k : Nat)
    (hq : pyStrip q ≠ "") (hk : 0 < k) (hs : c.searchErr = none) :
    (TextEmbeddingService.retrieve_similar_embeddings (.ok qv) c s cn q k
      = .ok (((collectionPoints s cn).take k).map (resultOfPoint qv))) ∧
    ((((collectionPoints s cn).take k).map (resultOfPoint qv)).length ≤ k) ∧
    (collectionPoints s cn = [] →
      TextEmbeddingService.retrieve_similar_embeddings (.ok qv) c s cn q k
        = .ok []) ∧
    (QdrantEmbeddingService.retrieve_embeddings (.ok qv) c s q k
      = .ok (((collectionPoints s "text_embeddings").take k).map
          (resultOfPoint qv))) := by
  have hq0 := trim_empty_not_or q hq
  refine ⟨?_, ?_, ?_, ?_⟩
  · simp only [TextEmbeddingService.retrieve_similar_embeddings,
      TextEmbeddingService.convert_single_text_to_embedding, qSearch, hs,
      if_neg hq0, List.map_map]
    rfl
  · simp only [List.length_map, List.length_take]
    exact Nat.min_le_left _ _
  · intro h
    simp only [TextEmbeddingService.retrieve_similar_embeddings,
      TextEmbeddingService.convert_single_text_to_embedding, qSearch, hs,
      if_neg hq0, h, List.take_nil, List.map_nil]
  · simp only [QdrantEmbeddingService.retrieve_embeddings, qSearch, hs,
      if_neg hq0, List.map_map]
    rfl

theorem retrieve_maps_hits_witness :
    TextEmbeddingService.retrieve_similar_embeddings (.ok [1]) okClient
        ⟨[⟨"text_embeddings", 1024, Distance.COSINE⟩],
         [("text_embeddings", ⟨"p1", [2], some [("text", "cat")]⟩),
          ("text_embeddings", ⟨"p2", [3], none⟩)]⟩
        "text_embeddings" "hello" 5
      = .ok [⟨"p1", 2, [("text", "cat")], "cat"⟩, ⟨"p2", 3, [], ""⟩] ∧
    TextEmbeddingService.retrieve_similar_embeddings (.ok [1]) okClient
        ⟨[⟨"text_embeddings", 1024, Distance.COSINE⟩], []⟩
        "text_embeddings" "hello" 5
      = .ok [] :=
  ⟨(retrieve_maps_hits okClient
      ⟨[⟨"text_embeddings", 1024, Distance.COSINE⟩],
       [("text_embeddings", ⟨"p1", [2], some [("text", "cat")]⟩),
        ("text_embeddings", ⟨"p2", [3], none⟩)]⟩
      "text_embeddings" "hello" [1] 5 (by decide) (by decide) rfl).1,
   (retrieve_maps_hits okClient
      ⟨[⟨"text_embeddings", 1024, Distance.COSINE⟩], []⟩
      "text_embeddings" "hello" [1] 5 (by decide) (by decide) rfl).2.2.1 rfl⟩

/-- C6: every persisted payload contains the keys "text" and "created_at":
the defaults (the original input text, the ingestion timestamp) are
applied exactly when the caller's metadata lacks the key, and a
caller-supplied "text" or "created_at" wins over the default — for the
`setdefault` enrichment loop of the batched saves (`enrichMeta`) and for
the dict-literal merge of the strict pipeline's `save_embedding`
(`dictMerge`). -/
theorem payload_text_created_at_defaults (m : Dict) (t i now : String)
    (hnd : (m.map Prod.fst).Nodup) :
    (dget (enrichMeta t i now m) "text" = some ((dget m "text").getD t) ∧
     dget (enrichMeta t i now m) "created_at"
       = some ((dget m "created_at").getD now)) ∧
    (dget (dictMerge [("text", t), ("created_at", now)] m) "text"
        = some ((dget m "text").getD t) ∧
     dget (dictMerge [("text", t), ("created_at", now)] m) "created_at"
        = some ((dget m "created_at").getD now)) := by
  refine ⟨⟨dget_enrichMeta_text t i now m, dget_enrichMeta_created_at t i now m⟩,
    ?_, ?_⟩
  · rw [dget_dictMerge m _ _ hnd]
    cases h : dget m "text" with
    | some v => simp
    | none => simp [dget]
  · rw [dget_dictMerge m _ _ hnd]
    cases h : dget m "created_at" with
    | some v => simp
    | none =>
      have hne : (("text" : String) == "created_at") = false := by decide
      simp [dget, hne]

theorem payload_text_created_at_defaults_witness :
    (dget (enrichMeta "foo" "id0" "ts" [("category", "AI"), ("text", "override")])
        "text" = some "override" ∧
     dget (enrichMeta "foo" "id0" "ts" [("category", "AI"), ("text", "override")])
        "created_at" = some "ts") ∧
    (dget (dictMerge [("text", "foo"), ("created_at", "ts")]
        [("category", "AI"), ("text", "override")]) "text" = some "override" ∧
     dget (dictMerge [("text", "foo"), ("created_at", "ts")]
        [("category", "AI"), ("text", "override")]) "created_at" = some "ts") :=
  payload_text_created_at_defaults [("category", "AI"), ("text", "override")]
    "foo" "id0" "ts" (by decide)

theorem map_id_zipWith_point :
    ∀ (zs : List (String × List Int)) (ms : List Dict),
      (List.zipWith (fun (ie : String × List Int) m => Point.mk ie.1 ie.2 (some m))
          zs ms).map Point.id
        = (zs.map Prod.fst).take ms.length := by
  intro zs
  induction zs with
  | nil =>
    intro ms
    simp
  | cons z zs' ih =>
    intro ms
    cases ms with
    | nil => simp
    | cons m ms' => simp [ih]

/-- C10: the batched save mutates the caller's metadata dictionaries in
place: on success it returns the enriched dictionaries — each has gained
"text", "created_at" and "id" exactly where the caller's dictionary lacked
the key, existing entries untouched — and those same dictionaries are the
payloads of the newly stored points. -/
theorem save_mutates_caller_metadata (c : QdrantClient) (s : QdrantState)
    (cn now : String) (texts : List String) (ml : List Dict)
    (genIds : List String) (es : List (List Int)) (i : Nat) (t0 i0 : String)
    (d0 : Dict)
    (hg : c.getCollectionsErr = none) (hcr : c.createCollectionErr = none)
    (hu : c.upsertErr = none) (hne : texts ≠ [])
    (hlm : ml.length = texts.length) (hle : es.length = texts.length)
    (hli : genIds.length = texts.length)
    (hfresh : ∀ q ∈ s.points, ∀ gid ∈ genIds, q.2.id ≠ gid)
    (hndi : genIds.Nodup)
    (ht : texts[i]? = some t0) (hi : genIds[i]? = some i0)
    (hd : ml[i]? = some d0) :
    ((TextEmbeddingService.save_embeddings_to_qdrant (.ok es) c s cn texts
        (some ml) none genIds now).2
      = .ok (genIds, enrichedMetas texts genIds now ml) ∧
     (TextEmbeddingService.save_embeddings_to_qdrant (.ok es) c s cn texts
        (some ml) none genIds now).1.points
      = s.points ++ (mkPoints genIds es (enrichedMetas texts genIds now ml)).map
          (fun p => (cn, p))) ∧
    ((enrichedMetas texts genIds now ml)[i]? = some (enrichMeta t0 i0 now d0) ∧
     dget (enrichMeta t0 i0 now d0) "text" = some ((dget d0 "text").getD t0) ∧
     dget (enrichMeta t0 i0 now d0) "created_at"
       = some ((dget d0 "created_at").getD now) ∧
     dget (enrichMeta t0 i0 now d0) "id" = some ((dget d0 "id").getD i0) ∧
     (∀ k0 : String, (dget d0 k0).isSome = true →
       dget (enrichMeta t0 i0 now d0) k0 = dget d0 k0)) := by
  have htne : texts.isEmpty = false := by
    cases texts with
    | nil => exact absurd rfl hne
    | cons a l => rfl
  have hlen1 : (enrichedMetas texts genIds now ml).length = texts.length := by
    unfold enrichedMetas
    rw [List.length_zipWith, List.length_zip, hli, hlm]
    simp
  have hmapid : (mkPoints genIds es (enrichedMetas texts genIds now ml)).map
      Point.id = genIds := by
    unfold mkPoints
    rw [map_id_zipWith_point, List.map_fst_zip _ _ (by rw [hli, hle]), hlen1,
      ← hli, List.take_length]
  have hdisj : ∀ q ∈ s.points,
      ∀ p ∈ mkPoints genIds es (enrichedMetas texts genIds now ml),
        q.2.id ≠ p.id := by
    intro q hq p hp
    simp only [mkPoints] at hp
    obtain ⟨⟨g, e⟩, hie, mm, _, hpe⟩ :=
      of_mem_zipWith _ (genIds.zip es) (enrichedMetas texts genIds now ml) p hp
    have hgmem : g ∈ genIds := (List.of_mem_zip hie).1
    have := hfresh q hq g hgmem
    rw [hpe]
    exact this
  have hnodup : ((mkPoints genIds es (enrichedMetas texts genIds now ml)).map
      Point.id).Nodup := by
    rw [hmapid]
    exact hndi
  have hfold : (mkPoints genIds es (enrichedMetas texts genIds now ml)).foldl
      (fun acc p => upsertPoint acc cn p) s.points
      = s.points ++ (mkPoints genIds es (enrichedMetas texts genIds now ml)).map
          (fun p => (cn, p)) :=
    foldl_upsert_fresh cn _ s.points hdisj hnodup
  have hzip : (texts.zip genIds)[i]? = some (t0, i0) := by
    rw [show texts.zip genIds = List.zipWith Prod.mk texts genIds from rfl,
      getElem?_zipWith, ht, hi]
    rfl
  have hmli : (enrichedMetas texts genIds now ml)[i]?
      = some (enrichMeta t0 i0 now d0) := by
    unfold enrichedMetas
    rw [getElem?_zipWith, hzip, hd]
    rfl
  refine ⟨?_, hmli, dget_enrichMeta_text t0 i0 now d0,
    dget_enrichMeta_created_at t0 i0 now d0, dget_enrichMeta_id t0 i0 now d0,
    fun k0 hk0 => dget_enrichMeta_of_isSome t0 i0 now k0 d0 hk0⟩
  by_cases hp : hasCollection s cn = true
  · have he := ensure_tes_present c s cn 1024 hg hp
    constructor <;>
      simp [TextEmbeddingService.save_embeddings_to_qdrant,
        TextEmbeddingService.convert_text_to_embeddings, htne, he, hlm,
        qUpsert, hu, hfold]
  · have he := ensure_tes_absent c s cn 1024 hg hcr (by simpa using hp)
    constructor <;>
      simp [TextEmbeddingService.save_embeddings_to_qdrant,
        TextEmbeddingService.convert_text_to_embeddings, htne, he, hlm,
        qUpsert, hu, hfold]

theorem save_mutates_caller_metadata_witness :
    ((TextEmbeddingService.save_embeddings_to_qdrant (.ok [[9]]) okClient
        ⟨[⟨"text_embeddings", 1024, Distance.COSINE⟩], []⟩ "text_embeddings"
        ["cat"] (some [[("category", "AI")]]) none ["g1"] "ts").2
      = .ok (["g1"],
          [[("category", "AI"), ("text", "cat"), ("created_at", "ts"),
            ("id", "g1")]]) ∧
     (TextEmbeddingService.save_embeddings_to_qdrant (.ok [[9]]) okClient
        ⟨[⟨"text_embeddings", 1024, Distance.COSINE⟩], []⟩ "text_embeddings"
        ["cat"] (some [[("category", "AI")]]) none ["g1"] "ts").1.points
      = [("text_embeddings",
          ⟨"g1", [9],
           some [("category", "AI"), ("text", "cat"), ("created_at", "ts"),
             ("id", "g1")]⟩)]) ∧
    dget [("category", "AI"), ("text", "cat"), ("created_at", "ts"), ("id", "g1")]
        "category" = some "AI" := by
  have h := save_mutates_caller_metadata okClient
    ⟨[⟨"text_embeddings", 1024, Distance.COSINE⟩], []⟩ "text_embeddings" "ts"
    ["cat"] [[("category", "AI")]] ["g1"] [[9]] 0 "cat" "g1" [("category", "AI")]
    rfl rfl rfl (by decide) rfl rfl rfl (by simp) (by decide) rfl rfl rfl
  exact ⟨⟨h.1.1, h.1.2⟩, h.2.2.2.2.2 "category" (by decide)⟩
